import Mathlib

/-!
Verification of the orbital-menu interaction controller
(`useOrbitalMenu` hook: layout engine + pointer-gesture state machine).

Shallow embedding notes:
* JS numbers are modelled as rationals (ℚ); `Math.cos` / `Math.sin` are
  abstract parameters `mathCos mathSin : ℚ → ℚ`, since every claim about
  the layout is structural in them.
* `Math.sqrt(d) < CLICK_THRESHOLD_PX` is modelled as
  `d < CLICK_THRESHOLD_PX ^ 2`; both sides are nonnegative and `sqrt` is
  strictly monotone on nonnegatives, so the comparisons are equivalent.
* React refs update synchronously; React state updates are modelled as
  applied between consecutive events (each event handler sees the state
  left by the previous event), and the item-positions `useEffect` is
  modelled as running after every event (`applyItemPositionsEffect`).
* `requestAnimationFrame` scheduling: `animationFrameRef` holds the
  pointer coordinates captured by the one pending callback (a newer
  `handlePointerMove` cancels the previous callback and schedules its
  own, so at most one is pending).  Running a frame clears the slot:
  in the source the stale numeric id is left behind, but cancelling an
  already-fired frame is a no-op, so the two are observationally equal.
* `window.innerWidth` / `window.innerHeight` are part of `Config`.
-/

namespace OrbitalMenu

/-- CLICK_THRESHOLD_MS = 200 (max time for a click). -/
def CLICK_THRESHOLD_MS : ℚ := 200

/-- CLICK_THRESHOLD_PX = 5 (max distance moved for a click). -/
def CLICK_THRESHOLD_PX : ℚ := 5

/-- ItemPosition: a satellite item's centre and its angle on the arc. -/
structure ItemPosition where
  x : ℚ
  y : ℚ
  angle : ℚ
  deriving DecidableEq, Repr

/-- Configuration of the hook (itemCount, arc parameters, clamping data,
and the ambient viewport extent read at move time). `itemCount` is an
`Int` because the source accepts any JS number here and the loop
`for (let i = 0; i < itemCount; i++)` runs `max itemCount 0` times. -/
structure Config where
  itemCount : Int
  radius : ℚ
  startAngle : ℚ
  sweepAngle : ℚ
  buttonSize : ℚ
  boundaryPadding : ℚ
  innerWidth : ℚ
  innerHeight : ℚ
  deriving DecidableEq, Repr

/-- calculateItemPositions (source lines 64-77): positions of the menu
items along the arc around centre (cx, cy). -/
def calculateItemPositions (mathCos mathSin : ℚ → ℚ) (cfg : Config)
    (cx cy : ℚ) : List ItemPosition :=
  let angleStep : ℚ :=
    if 1 < cfg.itemCount then cfg.sweepAngle / ((cfg.itemCount : ℚ) - 1) else 0
  (List.range cfg.itemCount.toNat).map fun (i : ℕ) =>
    let angle : ℚ :=
      cfg.startAngle + (if cfg.itemCount = 1 then 0 else (i : ℚ) * angleStep)
    { x := cx + cfg.radius * mathCos angle
      y := cy + cfg.radius * mathSin angle
      angle := angle }

/-- The mutable state of the hook: React state (isOpen, buttonPosition,
itemPositions, isDragging) and the drag refs. -/
structure MenuState where
  isOpen : Bool
  buttonPosition : ℚ × ℚ
  itemPositions : List ItemPosition
  isDragging : Bool
  dragStartRef : Option (ℚ × ℚ)
  dragStartTimeRef : ℚ
  dragOffsetRef : ℚ × ℚ
  animationFrameRef : Option (ℚ × ℚ)
  deriving DecidableEq, Repr

/-- Initial state of the hook: closed, idle, no session, refs at their
initial values (dragStartTimeRef starts at 0). -/
def initialState (initialPosition : ℚ × ℚ) : MenuState :=
  { isOpen := false
    buttonPosition := initialPosition
    itemPositions := []
    isDragging := false
    dragStartRef := none
    dragStartTimeRef := 0
    dragOffsetRef := (0, 0)
    animationFrameRef := none }

/-- handlePointerDown (source lines 93-122): start a drag session.
`rectCenter` is the centre of the button's bounding rect when available
(`rect.left + rect.width / 2`, `rect.top + rect.height / 2`); the
fallback offset is (0, 0). `now` is `Date.now()`. -/
def handlePointerDown (s : MenuState) (clientX clientY now : ℚ)
    (rectCenter : Option (ℚ × ℚ)) : MenuState :=
  { s with
    isDragging := true
    dragStartTimeRef := now
    dragStartRef := some (clientX, clientY)
    dragOffsetRef :=
      match rectCenter with
      | some c => (clientX - c.1, clientY - c.2)
      | none => (0, 0) }

/-- handlePointerMove (source lines 124-167), synchronous part: guard,
then cancel any pending animation frame and schedule a new callback that
captures this event's coordinates. The deferred body is
`runAnimationFrame`. -/
def handlePointerMove (s : MenuState) (clientX clientY : ℚ) : MenuState :=
  if !s.isDragging || s.dragStartRef.isNone then s
  else { s with animationFrameRef := some (clientX, clientY) }

/-- Per-axis clamp `Math.max(lo, Math.min(v, hi))` (source lines 147-148). -/
def clampAxis (lo hi v : ℚ) : ℚ := max lo (min v hi)

/-- The requestAnimationFrame callback body scheduled by
handlePointerMove (source lines 132-165): compute the candidate centre
from the captured event coordinates and the drag offset, clamp each axis
into the padded viewport, and update the button position. -/
def runAnimationFrame (cfg : Config) (s : MenuState) : MenuState :=
  match s.animationFrameRef with
  | none => s
  | some ev =>
    let newX := ev.1 - s.dragOffsetRef.1
    let newY := ev.2 - s.dragOffsetRef.2
    let halfButton := cfg.buttonSize / 2
    let minX := halfButton + cfg.boundaryPadding
    let maxX := cfg.innerWidth - halfButton - cfg.boundaryPadding
    let minY := halfButton + cfg.boundaryPadding
    let maxY := cfg.innerHeight - halfButton - cfg.boundaryPadding
    { s with
      buttonPosition := (clampAxis minX maxX newX, clampAxis minY maxY newY)
      animationFrameRef := none }

/-- handlePointerUp (source lines 169-211): no-op unless dragging;
otherwise cancel any pending frame, classify the gesture (the
classification has no effect: both branches of the source `if` are
empty), stop dragging and clear the session start point.
`dragStartTimeRef` and `dragOffsetRef` are NOT cleared. -/
def handlePointerUp (s : MenuState) (clientX clientY now : ℚ) : MenuState :=
  if !s.isDragging then s
  else
    { s with
      animationFrameRef := none
      isDragging := false
      dragStartRef := none }

/-- Squared Euclidean distance between two points. -/
def distSq (x1 y1 x2 y2 : ℚ) : ℚ := (x1 - x2) ^ 2 + (y1 - y2) ^ 2

/-- handleClick (source lines 214-232): recompute duration and distance
against the thresholds and toggle isOpen when both are under threshold.
When `dragStartRef` is null the source uses distance 0. The source
compares `Math.sqrt(distSq) < CLICK_THRESHOLD_PX`; we compare
`distSq < CLICK_THRESHOLD_PX ^ 2`, which is equivalent. -/
def handleClick (s : MenuState) (clientX clientY now : ℚ) : MenuState :=
  let duration := now - s.dragStartTimeRef
  let distanceMovedSq : ℚ :=
    match s.dragStartRef with
    | some p => distSq clientX clientY p.1 p.2
    | none => 0
  if duration < CLICK_THRESHOLD_MS ∧ distanceMovedSq < CLICK_THRESHOLD_PX ^ 2 then
    { s with isOpen := !s.isOpen }
  else s

/-- toggleMenu (source lines 236-238): set isOpen to forceState if it is
a boolean, otherwise flip it. -/
def toggleMenu (s : MenuState) (forceState : Option Bool) : MenuState :=
  { s with
    isOpen :=
      match forceState with
      | some b => b
      | none => !s.isOpen }

/-- The useEffect at source lines 80-88: whenever isOpen or
buttonPosition changed, recompute itemPositions when open and clear them
when closed. -/
def applyItemPositionsEffect (mathCos mathSin : ℚ → ℚ) (cfg : Config)
    (s : MenuState) : MenuState :=
  if s.isOpen then
    { s with
      itemPositions :=
        calculateItemPositions mathCos mathSin cfg
          s.buttonPosition.1 s.buttonPosition.2 }
  else { s with itemPositions := [] }

/-- One observable event consumed by the controller. `frame` is the
display frame firing the pending requestAnimationFrame callback. -/
inductive Event where
  | pointerDown (clientX clientY now : ℚ) (rectCenter : Option (ℚ × ℚ))
  | pointerMove (clientX clientY : ℚ)
  | frame
  | pointerUp (clientX clientY now : ℚ)
  | click (clientX clientY now : ℚ)
  | toggle (forceState : Option Bool)
  deriving DecidableEq, Repr

/-- Dispatch one event to its handler. -/
def handleEvent (cfg : Config) (s : MenuState) : Event → MenuState
  | .pointerDown x y t rc => handlePointerDown s x y t rc
  | .pointerMove x y => handlePointerMove s x y
  | .frame => runAnimationFrame cfg s
  | .pointerUp x y t => handlePointerUp s x y t
  | .click x y t => handleClick s x y t
  | .toggle f => toggleMenu s f

/-- One step of the controller: handle the event, then run the
item-positions effect (React flushes effects before the next event). -/
def step (mathCos mathSin : ℚ → ℚ) (cfg : Config) (s : MenuState)
    (e : Event) : MenuState :=
  applyItemPositionsEffect mathCos mathSin cfg (handleEvent cfg s e)

/-- Run a sequence of events from a state. -/
def run (mathCos mathSin : ℚ → ℚ) (cfg : Config) (s : MenuState)
    (es : List Event) : MenuState :=
  es.foldl (step mathCos mathSin cfg) s

/-- A concrete configuration used for closed evaluations: 4 items,
viewport 1000 by 800, buttonSize 50, boundaryPadding 10. The default
startAngle and sweepAngle of the source are multiples of π and hence not
rational; the angles here are arbitrary rationals, which is harmless
because every angle-dependent claim is parametric in the config. -/
def testConfig : Config :=
  { itemCount := 4
    radius := 100
    startAngle := 0
    sweepAngle := 3
    buttonSize := 50
    boundaryPadding := 10
    innerWidth := 1000
    innerHeight := 800 }

/-- A state with an active drag session grabbed exactly at the button
centre (offset (0, 0)), as after a pointer-down at the initial position
(100, 400): used to instantiate the scenario theorems. -/
def dragAtCenterState : MenuState :=
  { initialState (100, 400) with isDragging := true, dragStartRef := some (100, 400) }

/-- The invariant maintained by the item-positions effect: the exposed
satellite list is empty while closed and is the layout of the current
button position while open. -/
def itemsInv (mathCos mathSin : ℚ → ℚ) (cfg : Config) (s : MenuState) : Prop :=
  s.itemPositions =
    if s.isOpen then
      calculateItemPositions mathCos mathSin cfg
        s.buttonPosition.1 s.buttonPosition.2
    else []

/-- C10: for every itemCount ≤ 0 (including negative values) the layout
computation returns the empty list: the loop body never runs. -/
theorem c10_nonpositive_itemCount_empty (mathCos mathSin : ℚ → ℚ)
    (cfg : Config) (cx cy : ℚ) (h : cfg.itemCount ≤ 0) :
    calculateItemPositions mathCos mathSin cfg cx cy = [] := by
  simp [calculateItemPositions, Int.toNat_of_nonpos h]

/-- C10 witness: itemCount = -2 yields the empty list. -/
theorem c10_nonpositive_itemCount_empty_witness :
    ({ testConfig with itemCount := -2 } : Config).itemCount ≤ 0 ∧
      calculateItemPositions (fun _ => 1) (fun _ => 0)
        { testConfig with itemCount := -2 } 100 400 = [] :=
  ⟨by decide,
   c10_nonpositive_itemCount_empty (fun _ => 1) (fun _ => 0)
     { testConfig with itemCount := -2 } 100 400 (by decide)⟩

/-- C9: a pointer-up (the pointer-cancel path uses the same handler)
arriving while isDragging is false is a no-op on the entire state: no
change to isOpen, position, isDragging or the session refs. -/
theorem c9_pointerUp_without_session_noop (s : MenuState) (x y t : ℚ)
    (h : s.isDragging = false) :
    handlePointerUp s x y t = s := by
  simp [handlePointerUp, h]

/-- C9 witness: pointer-up on the freshly initialized state is a no-op. -/
theorem c9_pointerUp_without_session_noop_witness :
    (initialState (100, 400)).isDragging = false ∧
      handlePointerUp (initialState (100, 400)) 7 8 9 = initialState (100, 400) :=
  ⟨rfl, c9_pointerUp_without_session_noop (initialState (100, 400)) 7 8 9 rfl⟩

/-- C6: the per-axis clamp used on pointer-move is idempotent when the
clamp interval is non-empty, and a value already inside the bounds is
returned unchanged. -/
theorem c6_clampAxis_idempotent (lo hi v : ℚ) (h : lo ≤ hi) :
    clampAxis lo hi (clampAxis lo hi v) = clampAxis lo hi v ∧
      (lo ≤ v → v ≤ hi → clampAxis lo hi v = v) := by
  constructor
  · simp only [clampAxis, max_def, min_def]
    split_ifs <;> linarith
  · intro h1 h2
    simp only [clampAxis, max_def, min_def]
    split_ifs <;> linarith

/-- C6 witness: interval [35, 965], in-bounds value 100. -/
theorem c6_clampAxis_idempotent_witness :
    (35 : ℚ) ≤ 965 ∧
      (clampAxis 35 965 (clampAxis 35 965 100) = clampAxis 35 965 100 ∧
        ((35 : ℚ) ≤ 100 → (100 : ℚ) ≤ 965 → clampAxis 35 965 100 = 100)) :=
  ⟨by norm_num, c6_clampAxis_idempotent 35 965 100 (by norm_num)⟩

/-- C4: with itemCount = 1 the layout yields exactly one item, placed at
(cx + r·cos(startAngle), cy + r·sin(startAngle)) with angle startAngle,
and the output does not depend on sweepAngle. -/
theorem c4_single_item (mathCos mathSin : ℚ → ℚ) (cfg : Config)
    (cx cy sweep2 : ℚ) (h : cfg.itemCount = 1) :
    calculateItemPositions mathCos mathSin cfg cx cy =
      [{ x := cx + cfg.radius * mathCos cfg.startAngle
         y := cy + cfg.radius * mathSin cfg.startAngle
         angle := cfg.startAngle }] ∧
    calculateItemPositions mathCos mathSin
        { cfg with sweepAngle := sweep2 } cx cy =
      calculateItemPositions mathCos mathSin cfg cx cy := by
  simp [calculateItemPositions, h, show List.range 1 = [0] from rfl]

/-- C4 witness: one item at angle startAngle = 0, radius 100 around
(100, 400), with sweepAngle changed from 3 to 77. -/
theorem c4_single_item_witness :
    ({ testConfig with itemCount := 1 } : Config).itemCount = 1 ∧
      (calculateItemPositions (fun _ => 1) (fun _ => 0)
          { testConfig with itemCount := 1 } 100 400 =
        [{ x := 100 + 100 * 1, y := 400 + 100 * 0, angle := 0 }] ∧
      calculateItemPositions (fun _ => 1) (fun _ => 0)
          { testConfig with itemCount := 1, sweepAngle := 77 } 100 400 =
        calculateItemPositions (fun _ => 1) (fun _ => 0)
          { testConfig with itemCount := 1 } 100 400) :=
  ⟨rfl,
   c4_single_item (fun _ => 1) (fun _ => 0)
     { testConfig with itemCount := 1 } 100 400 77 rfl⟩

/-- C5: with viewport 1000 by 800, boundaryPadding 10 and buttonSize 50,
a pointer-move whose candidate centre is (-50, 400) (offset (0, 0))
followed by its animation frame updates the button position to each axis
clamped into [halfButton + padding, extent - halfButton - padding],
that is to exactly (35, 400). -/
theorem c5_drag_clamped (s : MenuState) (p : ℚ × ℚ)
    (h1 : s.isDragging = true) (h2 : s.dragStartRef = some p)
    (h3 : s.dragOffsetRef = (0, 0)) :
    (runAnimationFrame testConfig (handlePointerMove s (-50) 400)).buttonPosition
        = (clampAxis 35 965 (-50), clampAxis 35 765 400) ∧
    (runAnimationFrame testConfig (handlePointerMove s (-50) 400)).buttonPosition
        = (35, 400) := by
  constructor <;>
    simp [handlePointerMove, h1, h2, h3, runAnimationFrame, testConfig,
      clampAxis] <;> norm_num

/-- C5 witness: the scenario run from the initial state at (100, 400)
with an active drag session grabbed at the centre. -/
theorem c5_drag_clamped_witness :
    dragAtCenterState.isDragging = true ∧
    dragAtCenterState.dragStartRef = some (100, 400) ∧
    dragAtCenterState.dragOffsetRef = (0, 0) ∧
    ((runAnimationFrame testConfig
        (handlePointerMove dragAtCenterState (-50) 400)).buttonPosition
        = (clampAxis 35 965 (-50), clampAxis 35 765 400) ∧
      (runAnimationFrame testConfig
        (handlePointerMove dragAtCenterState (-50) 400)).buttonPosition
        = (35, 400)) :=
  ⟨rfl, rfl, rfl, c5_drag_clamped dragAtCenterState (100, 400) rfl rfl rfl⟩

/-- C1 counter-evidence: the spec's own example gesture — pointer-down
at t = 0 on (100, 100), pointer-up at t = 50 at (140, 100) (distance
40 px, far above CLICK_THRESHOLD_PX), then the click event at the same
time and place — run from the closed initial state. The code TOGGLES
isOpen to true, because handlePointerUp clears dragStartRef before the
click event arrives, so handleClick recomputes distanceMoved as 0 and
only the 200 ms duration check remains effective. -/
theorem c1_fast_long_drag_still_toggles :
    (run (fun _ => 1) (fun _ => 0) testConfig (initialState (100, 400))
      [Event.pointerDown 100 100 0 none,
       Event.pointerUp 140 100 50,
       Event.click 140 100 50]).isOpen = true := by
  norm_num [run, step, handleEvent, handlePointerDown, handlePointerUp,
    handleClick, applyItemPositionsEffect, initialState, CLICK_THRESHOLD_MS,
    CLICK_THRESHOLD_PX, distSq]

/-- C2 counter-evidence: a click with no preceding pointer-down (the
keyboard-activation path), at time 300 ms, on the freshly initialized
controller. dragStartTimeRef is 0, so duration = 300 ≥
CLICK_THRESHOLD_MS and the click handler does NOT toggle isOpen: the
menu stays closed. -/
theorem c2_keyboard_click_does_not_toggle :
    (run (fun _ => 1) (fun _ => 0) testConfig (initialState (100, 400))
      [Event.click 100 400 300]).isOpen = false := by
  norm_num [run, step, handleEvent, handleClick, applyItemPositionsEffect,
    initialState, CLICK_THRESHOLD_MS, CLICK_THRESHOLD_PX, distSq]

/-- Helper: the layout always produces itemCount.toNat entries. -/
theorem length_calculateItemPositions (mathCos mathSin : ℚ → ℚ)
    (cfg : Config) (cx cy : ℚ) :
    (calculateItemPositions mathCos mathSin cfg cx cy).length
      = cfg.itemCount.toNat := by
  simp only [calculateItemPositions, List.length_map, List.length_range]

/-- C3: for itemCount = N > 1 the layout yields exactly N entries in
index order; entry i carries angle startAngle + i * (sweepAngle / (N - 1))
and position (cx + radius·cos(angle), cy + radius·sin(angle)); hence
item 0 sits at startAngle and item N-1 at startAngle + sweepAngle. -/
theorem c3_layout_even_spacing (mathCos mathSin : ℚ → ℚ) (cfg : Config)
    (cx cy : ℚ) (h : 1 < cfg.itemCount) :
    (calculateItemPositions mathCos mathSin cfg cx cy).length
        = cfg.itemCount.toNat ∧
    (∀ i : ℕ, (i : Int) < cfg.itemCount →
      (calculateItemPositions mathCos mathSin cfg cx cy)[i]? =
        some { x := cx + cfg.radius * mathCos (cfg.startAngle +
                  (i : ℚ) * (cfg.sweepAngle / ((cfg.itemCount : ℚ) - 1)))
               y := cy + cfg.radius * mathSin (cfg.startAngle +
                  (i : ℚ) * (cfg.sweepAngle / ((cfg.itemCount : ℚ) - 1)))
               angle := cfg.startAngle +
                  (i : ℚ) * (cfg.sweepAngle / ((cfg.itemCount : ℚ) - 1)) }) ∧
    ((calculateItemPositions mathCos mathSin cfg cx cy)[0]?).map
        ItemPosition.angle = some cfg.startAngle ∧
    ((calculateItemPositions mathCos mathSin cfg cx
        cy)[cfg.itemCount.toNat - 1]?).map ItemPosition.angle
      = some (cfg.startAngle + cfg.sweepAngle) := by
  have hne1 : cfg.itemCount ≠ 1 := by omega
  have hcast : ((cfg.itemCount.toNat : ℚ)) = ((cfg.itemCount : ℚ)) := by
    have h0 := Int.toNat_of_nonneg (by omega : (0 : Int) ≤ cfg.itemCount)
    exact_mod_cast congrArg (fun z : Int => (z : ℚ)) h0
  have hitem : ∀ i : ℕ, (i : Int) < cfg.itemCount →
      (calculateItemPositions mathCos mathSin cfg cx cy)[i]? =
        some { x := cx + cfg.radius * mathCos (cfg.startAngle +
                  (i : ℚ) * (cfg.sweepAngle / ((cfg.itemCount : ℚ) - 1)))
               y := cy + cfg.radius * mathSin (cfg.startAngle +
                  (i : ℚ) * (cfg.sweepAngle / ((cfg.itemCount : ℚ) - 1)))
               angle := cfg.startAngle +
                  (i : ℚ) * (cfg.sweepAngle / ((cfg.itemCount : ℚ) - 1)) } := by
    intro i hi
    have hi' : i < cfg.itemCount.toNat := by omega
    simp only [calculateItemPositions, List.getElem?_map,
      List.getElem?_range hi', Option.map_some']
    rw [if_pos h, if_neg hne1]
  refine ⟨length_calculateItemPositions mathCos mathSin cfg cx cy, hitem,
    ?_, ?_⟩
  · have h0 := hitem 0 (by omega)
    rw [h0]
    simp
  · have hlast := hitem (cfg.itemCount.toNat - 1) (by omega)
    rw [hlast]
    have hs : ((cfg.itemCount.toNat - 1 : ℕ) : ℚ) = (cfg.itemCount : ℚ) - 1 := by
      rw [Nat.cast_sub (by omega : 1 ≤ cfg.itemCount.toNat), hcast]
      norm_num
    have hne0 : ((cfg.itemCount : ℚ)) - 1 ≠ 0 := by
      have h1 : (1 : ℚ) < (cfg.itemCount : ℚ) := by exact_mod_cast h
      intro hz
      linarith
    simp only [Option.map_some']
    congr 1
    rw [hs]
    field_simp

/-- C3 witness: itemCount = 4 in testConfig; the layout around
(100, 400) has 4 entries. -/
theorem c3_layout_even_spacing_witness :
    (1 : Int) < testConfig.itemCount ∧
      (calculateItemPositions (fun _ => 1) (fun _ => 0) testConfig
        100 400).length = testConfig.itemCount.toNat :=
  ⟨by decide,
   (c3_layout_even_spacing (fun _ => 1) (fun _ => 0) testConfig
     100 400 (by decide)).1⟩

/-- C7: three pointer-moves while dragging followed by one display frame
are the same as the last move followed by the frame (the two earlier
scheduled recomputations are cancelled, not queued); after the burst
exactly one callback is pending and it carries the last event's
coordinates; the single recomputation clamps the candidate derived from
the LAST move event. -/
theorem c7_throttle_coalescing (mathCos mathSin : ℚ → ℚ) (cfg : Config)
    (s : MenuState) (p : ℚ × ℚ) (x1 y1 x2 y2 x3 y3 : ℚ)
    (h1 : s.isDragging = true) (h2 : s.dragStartRef = some p) :
    run mathCos mathSin cfg s
        [Event.pointerMove x1 y1, Event.pointerMove x2 y2,
         Event.pointerMove x3 y3, Event.frame] =
      run mathCos mathSin cfg s [Event.pointerMove x3 y3, Event.frame] ∧
    (run mathCos mathSin cfg s
        [Event.pointerMove x1 y1, Event.pointerMove x2 y2,
         Event.pointerMove x3 y3]).animationFrameRef = some (x3, y3) ∧
    (run mathCos mathSin cfg s
        [Event.pointerMove x1 y1, Event.pointerMove x2 y2,
         Event.pointerMove x3 y3, Event.frame]).buttonPosition =
      (clampAxis (cfg.buttonSize / 2 + cfg.boundaryPadding)
          (cfg.innerWidth - cfg.buttonSize / 2 - cfg.boundaryPadding)
          (x3 - s.dragOffsetRef.1),
       clampAxis (cfg.buttonSize / 2 + cfg.boundaryPadding)
          (cfg.innerHeight - cfg.buttonSize / 2 - cfg.boundaryPadding)
          (y3 - s.dragOffsetRef.2)) := by
  refine ⟨?_, ?_, ?_⟩ <;>
    cases hO : s.isOpen <;>
      simp [run, step, handleEvent, handlePointerMove, runAnimationFrame,
        applyItemPositionsEffect, h1, h2, hO, clampAxis]

/-- C7 witness: a burst of three moves from the drag-at-centre state
leaves exactly the last coordinates (500, 600) pending. -/
theorem c7_throttle_coalescing_witness :
    dragAtCenterState.isDragging = true ∧
    dragAtCenterState.dragStartRef = some (100, 400) ∧
    (run (fun _ => 1) (fun _ => 0) testConfig dragAtCenterState
        [Event.pointerMove 1 2, Event.pointerMove 3 4,
         Event.pointerMove 500 600]).animationFrameRef = some (500, 600) :=
  ⟨rfl, rfl,
   (c7_throttle_coalescing (fun _ => 1) (fun _ => 0) testConfig
     dragAtCenterState (100, 400) 1 2 3 4 500 600 rfl rfl).2.1⟩

/-- Helper: every step of the controller re-establishes the items
invariant, because the item-positions effect runs last. -/
theorem itemsInv_step (mathCos mathSin : ℚ → ℚ) (cfg : Config)
    (s : MenuState) (e : Event) :
    itemsInv mathCos mathSin cfg (step mathCos mathSin cfg s e) := by
  unfold step applyItemPositionsEffect itemsInv
  cases hO : (handleEvent cfg s e).isOpen <;> simp [hO]

/-- Helper: the items invariant propagates along any event sequence. -/
theorem itemsInv_run (mathCos mathSin : ℚ → ℚ) (cfg : Config)
    (s : MenuState) (es : List Event)
    (h : itemsInv mathCos mathSin cfg s) :
    itemsInv mathCos mathSin cfg (run mathCos mathSin cfg s es) := by
  induction es generalizing s with
  | nil => exact h
  | cons e es ih =>
    simpa [run] using ih (step mathCos mathSin cfg s e)
      (itemsInv_step mathCos mathSin cfg s e)

/-- C8: in every state reachable from the initial state, the exposed
satellite list is empty when isOpen is false; when isOpen is true it is
exactly the layout of the current button position and (for nonnegative
itemCount) has exactly itemCount entries. Every transition of isOpen
re-establishes this in the same update. -/
theorem c8_satellite_invariant (mathCos mathSin : ℚ → ℚ) (cfg : Config)
    (initPos : ℚ × ℚ) (es : List Event) (h : 0 ≤ cfg.itemCount) :
    ((run mathCos mathSin cfg (initialState initPos) es).isOpen = false →
      (run mathCos mathSin cfg (initialState initPos) es).itemPositions
        = []) ∧
    ((run mathCos mathSin cfg (initialState initPos) es).isOpen = true →
      (run mathCos mathSin cfg (initialState initPos) es).itemPositions =
        calculateItemPositions mathCos mathSin cfg
          (run mathCos mathSin cfg (initialState initPos) es).buttonPosition.1
          (run mathCos mathSin cfg (initialState initPos) es).buttonPosition.2 ∧
      (((run mathCos mathSin cfg (initialState initPos)
          es).itemPositions.length : Int)) = cfg.itemCount) := by
  have hinv := itemsInv_run mathCos mathSin cfg (initialState initPos) es
    (by simp [itemsInv, initialState])
  unfold itemsInv at hinv
  constructor
  · intro hO
    rw [hinv, hO]
    simp
  · intro hO
    rw [hinv, hO]
    refine ⟨by simp, ?_⟩
    simp [length_calculateItemPositions, Int.toNat_of_nonneg h]

/-- C8 witness: opening the menu through the external toggle from the
initial state satisfies the invariant. -/
theorem c8_satellite_invariant_witness :
    (0 : Int) ≤ testConfig.itemCount ∧
    (((run (fun _ => 1) (fun _ => 0) testConfig (initialState (100, 400))
          [Event.toggle (some true)]).isOpen = false →
        (run (fun _ => 1) (fun _ => 0) testConfig (initialState (100, 400))
          [Event.toggle (some true)]).itemPositions = []) ∧
      ((run (fun _ => 1) (fun _ => 0) testConfig (initialState (100, 400))
          [Event.toggle (some true)]).isOpen = true →
        (run (fun _ => 1) (fun _ => 0) testConfig (initialState (100, 400))
            [Event.toggle (some true)]).itemPositions =
          calculateItemPositions (fun _ => 1) (fun _ => 0) testConfig
            (run (fun _ => 1) (fun _ => 0) testConfig
              (initialState (100, 400))
              [Event.toggle (some true)]).buttonPosition.1
            (run (fun _ => 1) (fun _ => 0) testConfig
              (initialState (100, 400))
              [Event.toggle (some true)]).buttonPosition.2 ∧
        (((run (fun _ => 1) (fun _ => 0) testConfig (initialState (100, 400))
            [Event.toggle (some true)]).itemPositions.length : Int))
          = testConfig.itemCount)) :=
  ⟨by decide,
   c8_satellite_invariant (fun _ => 1) (fun _ => 0) testConfig (100, 400)
     [Event.toggle (some true)] (by decide)⟩

end OrbitalMenu
